import Mathlib

/-
Verification of the marker lifecycle / map-style synchronization core of the
map-file-explorer repository (src/components/MapContainer.tsx, the
imperative-Leaflet variant, which carries the store, the rendered-marker
handle map, and the file/export logic).

Modelling conventions:
* JSON values parsed by JSON.parse are modelled by the inductive Json below.
  JavaScript numbers (IEEE doubles) are modelled as exact rationals: the core
  performs no arithmetic on coordinates, it only stores and compares them, and
  every number reaching the store comes from a finite JSON literal or a map
  click, so the rational model is faithful for every behaviour the claims
  mention.  Object property access on a missing key (undefined) is modelled
  as Option.none.
* Date.now() readings are passed explicitly as a Nat argument t to the
  operations that call it; two calls in the same millisecond receive the
  same t.  Date.now().toString() is Nat.repr t.
* The Leaflet map surface is modelled by the tile layers present and the
  marker layers present; L.Marker handles are identified by tokens drawn
  from a fresh-token counter.  L.marker(x) succeeds exactly when x is a
  two-element array of numbers (the only shape this application ever
  produces); on any other argument it throws, which aborts the enclosing
  try block.  The popup HTML is presentational and is not modelled.
* Browser localStorage is modelled as the storage field: the content of the
  single fixed key the spec names.  The source contains no storage access at
  all, so no operation below reads or writes this field.
-/

/-- JSON value, the result of JSON.parse on imported file content. -/
inductive Json where
  | null : Json
  | bool : Bool → Json
  | num : Rat → Json
  | str : String → Json
  | arr : List Json → Json
  | obj : List (String × Json) → Json

/-- Property access loc.k on a parsed value: the field of an object (parsed
objects have unique keys), undefined (none) otherwise. -/
def jGet (j : Json) (k : String) : Option Json :=
  match j with
  | Json.obj fields => (fields.find? (fun p => p.1 == k)).map (·.2)
  | _ => none

/-- Strict equality test m.id === id used (negated) by removeMarker's filter:
true only when the field is present, is a string, and equals id. -/
def jsIdEq : Option Json → String → Bool
  | some (Json.str a), b => a == b
  | _, _ => false

/-- The string JavaScript uses when a value is an object property key
(markersRef.current[loc.id] = marker).  Ids are strings in every behaviour
the claims exercise; the remaining coercions are summarised by placeholders
since no claim (and no well-typed caller) reaches them. -/
def jsKey : Option Json → String
  | some (Json.str a) => a
  | none => "undefined"
  | some Json.null => "null"
  | some (Json.bool true) => "true"
  | some (Json.bool false) => "false"
  | some (Json.num _) => "[number key]"
  | some (Json.arr _) => "[array key]"
  | some (Json.obj _) => "[object key]"

/-- Argument shapes accepted by L.marker: a [lat, lng] array of two numbers
(the only latlng shape this application constructs or exports).  Every other
value makes L.marker throw. -/
def latLngOfJson : Option Json → Option (Rat × Rat)
  | some (Json.arr [Json.num a, Json.num b]) => some (a, b)
  | _ => none

/-- One entry of the mapStyles record (the icon component is presentational
and omitted). -/
structure MapStyleCfg where
  name : String
  url : String
  attribution : String
deriving DecidableEq

/-- The fixed mapStyles record: streets, satellite, dark, light. -/
def mapStyles : String → Option MapStyleCfg
  | "streets" => some
      { name := "Streets",
        url := "https://{s}.tile.openstreetmap.org/{z}/{x}/{y}.png",
        attribution := "&copy; <a href=\"https://www.openstreetmap.org/copyright\">OpenStreetMap</a>" }
  | "satellite" => some
      { name := "Satellite",
        url := "https://server.arcgisonline.com/ArcGIS/rest/services/World_Imagery/MapServer/tile/{z}/{y}/{x}",
        attribution := "&copy; Esri" }
  | "dark" => some
      { name := "Dark",
        url := "https://{s}.basemaps.cartocdn.com/dark_all/{z}/{x}/{y}{r}.png",
        attribution := "&copy; <a href=\"https://www.openstreetmap.org/copyright\">OpenStreetMap</a> &copy; <a href=\"https://carto.com/attributions\">CARTO</a>" }
  | "light" => some
      { name := "Light",
        url := "https://{s}.basemaps.cartocdn.com/light_all/{z}/{x}/{y}{r}.png",
        attribution := "&copy; <a href=\"https://www.openstreetmap.org/copyright\">OpenStreetMap</a> &copy; <a href=\"https://carto.com/attributions\">CARTO</a>" }
  | _ => none

/-- Layers currently on the Leaflet map surface: the tile layers (by url) and
the marker layers, each marker layer a handle token with its position. -/
structure MapSurface where
  tileLayers : List String
  markerLayers : List (Nat × (Rat × Rat))
deriving DecidableEq

/-- The state the component closes over: React state (savedMarkers,
searchQuery, mapStyle), the refs (markersRef, the map surface), a fresh-token
counter for newly created Leaflet marker handles, the toast log (most recent
first), and the content of the fixed localStorage key. -/
structure AppState where
  savedMarkers : List Json
  searchQuery : String
  mapStyle : String
  surface : MapSurface
  markersRef : List (String × Nat)
  nextTok : Nat
  toasts : List String
  storage : Option Json

/-- Lookup markersRef.current[k]. -/
def objGet (o : List (String × Nat)) (k : String) : Option Nat :=
  (o.find? (fun p => p.1 == k)).map (·.2)

/-- Assignment markersRef.current[k] = v: an existing key keeps its position
and is overwritten, a new key is appended (JavaScript property order). -/
def objSet (o : List (String × Nat)) (k : String) (v : Nat) : List (String × Nat) :=
  if (o.find? (fun p => p.1 == k)).isSome
  then o.map (fun p => if p.1 == k then (k, v) else p)
  else o ++ [(k, v)]

/-- Deletion: delete markersRef.current[k]. -/
def objDelete (o : List (String × Nat)) (k : String) : List (String × Nat) :=
  o.filter (fun p => !(p.1 == k))

/-- Object.keys. -/
def objKeys (o : List (String × Nat)) : List String := o.map (·.1)

/-- Object.values. -/
def objValues (o : List (String × Nat)) : List Nat := o.map (·.2)

/-- Append a toast notice (toast.success / toast.error). -/
def addToast (m : String) (s : AppState) : AppState :=
  { s with toasts := m :: s.toasts }

/-- The MarkerData record addMarker builds, as the JSON value it serializes
to: object with id, name and coordinates [lat, lng]. -/
def markerJson (id nm : String) (lat lng : Rat) : Json :=
  Json.obj [("id", Json.str id), ("name", Json.str nm),
            ("coordinates", Json.arr [Json.num lat, Json.num lng])]

/-- addMarker from the source: id := Date.now().toString() (the reading t is
passed explicitly), a Leaflet marker is created on the surface and stored in
markersRef under id, the record is appended to savedMarkers, and a success
toast fires.  The guard on map.current always passes after initialization. -/
def addMarker (t : Nat) (lat lng : Rat) (nm : String) (s : AppState) : AppState :=
  let id := Nat.repr t
  let tok := s.nextTok
  { s with
    nextTok := tok + 1,
    surface := { s.surface with markerLayers := s.surface.markerLayers ++ [(tok, (lat, lng))] },
    markersRef := objSet s.markersRef id tok,
    savedMarkers := s.savedMarkers ++ [markerJson id nm lat lng],
    toasts := ("Added " ++ nm) :: s.toasts }

/-- removeMarker from the source: if a handle is stored under id, remove its
layer from the map and delete the handle; then filter the record with that id
out of savedMarkers (strict equality on the id field); a toast fires either
way. -/
def removeMarker (id : String) (s : AppState) : AppState :=
  let s1 :=
    match objGet s.markersRef id with
    | some tok =>
      { s with
        surface := { s.surface with markerLayers := s.surface.markerLayers.filter (fun l => !(l.1 == tok)) },
        markersRef := objDelete s.markersRef id }
    | none => s
  { s1 with
    savedMarkers := s1.savedMarkers.filter (fun m => !(jsIdEq (jGet m "id") id)),
    toasts := "Marker removed" :: s1.toasts }

/-- One geocoder candidate as searchLocation destructures it. -/
structure GeoCandidate where
  lat : Rat
  lon : Rat
  display_name : String
deriving DecidableEq

/-- Outcome of the awaited geocoding fetch: a transport/service error (fetch
or response.json() threw), or a parsed candidate list.  parseFloat of the
candidate's lat/lon strings is modelled as the numbers carried here. -/
inductive FetchOutcome where
  | transportError : FetchOutcome
  | ok : List GeoCandidate → FetchOutcome

/-- Whitespace characters JavaScript's String.prototype.trim removes (the
ones relevant to query strings). -/
def isJsSpace (c : Char) : Bool :=
  c == ' ' || c == '\t' || c == '\n' || c == '\r'

/-- searchQuery.trim(): strip leading and trailing whitespace (kernel-evaluable model of the JavaScript trim). -/
def jsTrim (s : String) : String :=
  (((s.toList.dropWhile isJsSpace).reverse.dropWhile isJsSpace).reverse).asString

/-- The continuation of searchLocation after the awaited fetch resolves with
outcome o at clock reading t: a non-empty candidate list flies the view to the
first candidate (view position is not part of the observed state) and adds a
marker from it, then clears the query; an empty list toasts Location not
found; a transport error is caught and toasts Search failed. -/
def searchResponded (t : Nat) (o : FetchOutcome) (s : AppState) : AppState :=
  match o with
  | FetchOutcome.transportError => addToast "Search failed" s
  | FetchOutcome.ok [] => addToast "Location not found" s
  | FetchOutcome.ok (c :: _) =>
    let s1 := addMarker t c.lat c.lon c.display_name s
    { s1 with searchQuery := "" }

/-- searchLocation from the source: the guard (empty trimmed query, missing
map) returns before the fetch; otherwise the fetch is issued and its
continuation runs when the response arrives. -/
def searchLocation (t : Nat) (o : FetchOutcome) (s : AppState) : AppState :=
  if jsTrim s.searchQuery == "" then s else searchResponded t o s

/-- The guard at the top of searchLocation, separated out because the await
splits the function: the guard runs at invocation time, searchResponded runs
when the response arrives. -/
def searchGuard (s : AppState) : Bool :=
  !(jsTrim s.searchQuery == "")

/-- Result of JSON.parse on the imported file text: failure is a thrown
syntax error; success carries a parsed top-level array.  (A parsed non-array
top level also mutates the store before throwing at locations.forEach, a
shape the state type does not represent and no claim requires.) -/
inductive ParseResult where
  | failure : ParseResult
  | success : List Json → ParseResult

/-- The toast of the catch block of importLocations. -/
def importFailToast : String := "Failed to import locations. Invalid file format."

/-- The forEach loop of importLocations: creates one Leaflet marker per
element, keyed in markersRef by the element's id.  Returns false when
L.marker throws on an element (anything but a two-number array under
coordinates, including a missing field), which aborts the loop with the
elements so far already rendered. -/
def createImportHandles : List Json → AppState → AppState × Bool
  | [], s => (s, true)
  | loc :: rest, s =>
    match latLngOfJson (jGet loc "coordinates") with
    | none => (s, false)
    | some p =>
      createImportHandles rest
        { s with
          nextTok := s.nextTok + 1,
          surface := { s.surface with markerLayers := s.surface.markerLayers ++ [(s.nextTok, p)] },
          markersRef := objSet s.markersRef (jsKey (jGet loc "id")) s.nextTok }

/-- importLocations from the source, given the JSON.parse result of the file
content.  On parse failure the catch block only toasts.  On success: every
handle currently in markersRef has its layer removed and the ref is reset,
savedMarkers is replaced wholesale by the parsed array with no validation of
any kind, then the handles are recreated; a throw inside that loop is caught
after the list has already been swapped. -/
def importLocations (parsed : ParseResult) (s : AppState) : AppState :=
  match parsed with
  | ParseResult.failure => addToast importFailToast s
  | ParseResult.success locs =>
    let cleared :=
      { s with
        surface := { s.surface with
          markerLayers := s.surface.markerLayers.filter (fun l => !((objValues s.markersRef).contains l.1)) },
        markersRef := [] }
    let swapped := { cleared with savedMarkers := locs }
    match createImportHandles locs swapped with
    | (s2, true) => addToast ("Imported " ++ Nat.repr locs.length ++ " locations!") s2
    | (s2, false) => addToast importFailToast s2

/-- exportLocations from the source: JSON.stringify(savedMarkers, null, 2),
downloaded as a document.  JSON serialization followed by JSON.parse is the
identity on the values savedMarkers holds (finite numbers, strings, arrays,
objects), so the export is modelled as the list of values the exported text
parses back to. -/
def exportLocations (s : AppState) : List Json := s.savedMarkers

/-- The style-change effect (useEffect keyed on mapStyle): every TileLayer on
the map is removed, then mapStyles[mapStyle].url is read to add the new tile
layer.  Marker layers are not TileLayers and are untouched.  For a name
outside the record the url read throws after the removal, so no tile layer is
added. -/
def styleEffect (s : AppState) : AppState :=
  let surf := { s.surface with tileLayers := [] }
  match mapStyles s.mapStyle with
  | some st => { s with surface := { surf with tileLayers := [st.url] } }
  | none => { s with surface := surf }

/-- A style pick: setMapStyle(name).  React re-runs the effect only when the
state actually changes (same-value updates bail out). -/
def setStyle (nm : String) (s : AppState) : AppState :=
  if nm = s.mapStyle then s else styleEffect { s with mapStyle := nm }

/-- The savedMarkers value the initialization effect closed over when it
registered the map click handler: the initial React state, the empty list
(the effect has an empty dependency array and runs once). -/
def registeredClickMarkers : List Json := []

/-- The click handler registered by the initialization effect: adds a marker
named from the length of the captured savedMarkers list. -/
def initClickHandler (captured : List Json) (t : Nat) (lat lng : Rat) (s : AppState) : AppState :=
  addMarker t lat lng ("Location " ++ Nat.repr (captured.length + 1)) s

/-- Component startup: React state initializers plus the initialization
effect (map created, streets tile layer added, click handler registered).
The argument is the content of the fixed localStorage key; the source never
reads it, so the store always starts empty. -/
def initialState (stored : Option Json) : AppState :=
  { savedMarkers := [],
    searchQuery := "",
    mapStyle := "streets",
    surface := { tileLayers := ["https://{s}.tile.openstreetmap.org/{z}/{x}/{y}.png"], markerLayers := [] },
    markersRef := [],
    nextTok := 0,
    toasts := [],
    storage := stored }

/-- User-interaction / callback events, as serialized onto the single thread:
an addMarker call at clock t (from a click-to-add path or direct call), a map
click dispatched to the registered handler, the arrival of a search response,
a delete click, a file import (its parse result), a style pick. -/
inductive Event where
  | addAt : Nat → Rat → Rat → String → Event
  | clickAt : Nat → Rat → Rat → Event
  | searchRespAt : Nat → FetchOutcome → Event
  | removeEvt : String → Event
  | importEvt : ParseResult → Event
  | setStyleEvt : String → Event

/-- Dispatch one event. -/
def step (s : AppState) : Event → AppState
  | Event.addAt t lat lng nm => addMarker t lat lng nm s
  | Event.clickAt t lat lng => initClickHandler registeredClickMarkers t lat lng s
  | Event.searchRespAt t o => searchResponded t o s
  | Event.removeEvt id => removeMarker id s
  | Event.importEvt r => importLocations r s
  | Event.setStyleEvt nm => setStyle nm s

/-- Run an event sequence. -/
def run (es : List Event) (s : AppState) : AppState := es.foldl step s

/-- Whether an event is a bulk file import. -/
def isImportEvt : Event → Bool
  | Event.importEvt _ => true
  | _ => false

/-- The Date.now() readings at which an event generates an id: addMarker
calls, clicks, and search responses that carry at least one candidate. -/
def addTimes : Event → List Nat
  | Event.addAt t _ _ _ => [t]
  | Event.clickAt t _ _ => [t]
  | Event.searchRespAt t (FetchOutcome.ok (_ :: _)) => [t]
  | _ => []

/-- All id-generating clock readings of a trace, in order. -/
def traceAddTimes : List Event → List Nat
  | [] => []
  | e :: es => addTimes e ++ traceAddTimes es

/-- The id fields of the store's records, in list order (undefined for a
record without one). -/
def storeIds (s : AppState) : List (Option Json) :=
  s.savedMarkers.map (fun m => jGet m "id")

/-- Schema of a valid Location record as the spec states it (section 3:
id and name strings, coordinates a two-element numeric pair, latitude in
[-90, 90], longitude in [-180, 180]).  Reference definition built from the
spec's words, to compare the source's import behaviour against; the source
itself performs no such validation. -/
def specValidLocation (j : Json) : Bool :=
  match jGet j "id", jGet j "name", jGet j "coordinates" with
  | some (Json.str _), some (Json.str _), some (Json.arr [Json.num lat, Json.num lng]) =>
    decide (-90 ≤ lat) && decide (lat ≤ 90) && decide (-180 ≤ lng) && decide (lng ≤ 180)
  | _, _, _ => false

/-- Spec-side schema validity of a whole candidate import list. -/
def specValidImport (locs : List Json) : Bool := locs.all specValidLocation

/-- Concrete trace for the id-uniqueness analysis: two addMarker calls in the
same millisecond (both read Date.now() = 5). -/
def c1Trace : List Event := [Event.addAt 5 1 2 "First", Event.addAt 5 3 4 "Second"]

/-- Concrete trace whose add calls happen at distinct milliseconds. -/
def c1GoodTrace : List Event :=
  [Event.addAt 5 1 2 "First", Event.removeEvt "5", Event.addAt 7 3 4 "Second"]

/-- Concrete import candidate: syntactically valid JSON, schema-invalid per
the spec (latitude 100 outside [-90, 90], longitude 200 outside [-180, 180]). -/
def c2BadLocs : List Json :=
  [Json.obj [("id", Json.str "a"), ("name", Json.str "x"),
             ("coordinates", Json.arr [Json.num 100, Json.num 200])]]

/-- State in which search("A") is issued: query is A. -/
def c3s0 : AppState := { initialState none with searchQuery := "A" }

/-- State after the user types B and issues search("B") while A is pending. -/
def c3s1 : AppState := { c3s0 with searchQuery := "B" }

/-- Final state of the race: B's response (one candidate named Beta) arrives
first at clock 100, A's response (one candidate named Alpha) arrives second
at clock 200; each arrival runs the awaiting continuation. -/
def c3final : AppState :=
  searchResponded 200 (FetchOutcome.ok [⟨1, 2, "Alpha"⟩])
    (searchResponded 100 (FetchOutcome.ok [⟨3, 4, "Beta"⟩]) c3s1)

/-- Numeric value of a decimal digit character. -/
def digitVal (c : Char) : Nat := c.toNat - 48

/-- Value of a decimal digit string read left to right, accumulating onto s. -/
def digitsVal (s : Nat) (l : List Char) : Nat :=
  l.foldl (fun a c => a * 10 + digitVal c) s

/-! ### Helper lemmas -/

theorem digitVal_digitChar (m : Nat) (h : m < 10) :
    digitVal (Nat.digitChar m) = m := by
  interval_cases m <;> decide

theorem digitsVal_toDigitsCore (f : Nat) : ∀ (n : Nat) (acc : List Char), n < f →
    digitsVal 0 (Nat.toDigitsCore 10 f n acc) = digitsVal n acc := by
  induction f with
  | zero => intro n acc h; omega
  | succ f ih =>
    intro n acc h
    rw [Nat.toDigitsCore]
    by_cases h0 : n / 10 = 0
    · simp only [h0, if_pos]
      have hn : n < 10 := by omega
      have hm : n % 10 = n := by omega
      simp [digitsVal, hm, digitVal_digitChar n hn]
    · simp only [h0, if_neg, if_false]
      rw [ih (n / 10) _ (by omega)]
      have : (n / 10) * 10 + n % 10 = n := by omega
      simp [digitsVal, digitVal_digitChar (n % 10) (by omega), this]

theorem digitsVal_repr (n : Nat) : digitsVal 0 (Nat.repr n).toList = n := by
  have h := digitsVal_toDigitsCore (n + 1) n [] (Nat.lt_succ_self n)
  simpa [Nat.repr, Nat.toDigits, String.toList, List.asString, digitsVal] using h

theorem natRepr_injective : Function.Injective Nat.repr := by
  intro a b h
  have ha := digitsVal_repr a
  rw [h, digitsVal_repr] at ha
  exact ha.symm

theorem createImportHandles_savedMarkers (locs : List Json) (s : AppState) :
    ((createImportHandles locs s).1).savedMarkers = s.savedMarkers := by
  induction locs generalizing s with
  | nil => rfl
  | cons loc rest ih =>
    cases h : latLngOfJson (jGet loc "coordinates") with
    | none => simp [createImportHandles, h]
    | some p => simp [createImportHandles, h, ih]

theorem createImportHandles_storage (locs : List Json) (s : AppState) :
    ((createImportHandles locs s).1).storage = s.storage := by
  induction locs generalizing s with
  | nil => rfl
  | cons loc rest ih =>
    cases h : latLngOfJson (jGet loc "coordinates") with
    | none => simp [createImportHandles, h]
    | some p => simp [createImportHandles, h, ih]

theorem importLocations_success_savedMarkers (locs : List Json) (s : AppState) :
    (importLocations (ParseResult.success locs) s).savedMarkers = locs := by
  simp only [importLocations]
  split
  next s2 heq =>
    have h := congrArg (fun x => x.1.savedMarkers) heq.symm
    dsimp only at h
    rw [createImportHandles_savedMarkers] at h
    simpa [addToast] using h
  next s2 heq =>
    have h := congrArg (fun x => x.1.savedMarkers) heq.symm
    dsimp only at h
    rw [createImportHandles_savedMarkers] at h
    simpa [addToast] using h

theorem importLocations_storage (r : ParseResult) (s : AppState) :
    (importLocations r s).storage = s.storage := by
  cases r with
  | failure => rfl
  | success locs =>
    simp only [importLocations]
    split
    next s2 heq =>
      have h := congrArg (fun x => x.1.storage) heq.symm
      dsimp only at h
      rw [createImportHandles_storage] at h
      simpa [addToast] using h
    next s2 heq =>
      have h := congrArg (fun x => x.1.storage) heq.symm
      dsimp only at h
      rw [createImportHandles_storage] at h
      simpa [addToast] using h

theorem objGet_objDelete_self (o : List (String × Nat)) (k : String) :
    objGet (objDelete o k) k = none := by
  simp only [objGet, objDelete, Option.map_eq_none']
  rw [List.find?_eq_none]
  intro x hx
  have h := (List.mem_filter.mp hx).2
  simpa using h

theorem filter_idem {α : Type} (p : α → Bool) (l : List α) :
    (l.filter p).filter p = l.filter p := by
  induction l with
  | nil => rfl
  | cons a l ih => by_cases h : p a <;> simp [List.filter_cons, h, ih]

theorem removeMarker_savedMarkers (id : String) (s : AppState) :
    (removeMarker id s).savedMarkers
      = s.savedMarkers.filter (fun m => !(jsIdEq (jGet m "id") id)) := by
  rcases h : objGet s.markersRef id with _ | tok <;> simp [removeMarker, h]

theorem removeMarker_storage (id : String) (s : AppState) :
    (removeMarker id s).storage = s.storage := by
  rcases h : objGet s.markersRef id with _ | tok <;> simp [removeMarker, h]

theorem objGet_removeMarker_self (id : String) (s : AppState) :
    objGet (removeMarker id s).markersRef id = none := by
  rcases h : objGet s.markersRef id with _ | tok
  · simp [removeMarker, h]
  · simp [removeMarker, h, objGet_objDelete_self]

theorem removeMarker_markersRef_of_absent (id : String) (s : AppState)
    (h : objGet s.markersRef id = none) :
    (removeMarker id s).markersRef = s.markersRef := by
  simp [removeMarker, h]

theorem removeMarker_surface_of_absent (id : String) (s : AppState)
    (h : objGet s.markersRef id = none) :
    (removeMarker id s).surface = s.surface := by
  simp [removeMarker, h]

theorem savedMarkers_setStyle (nm : String) (s : AppState) :
    (setStyle nm s).savedMarkers = s.savedMarkers := by
  unfold setStyle styleEffect
  by_cases h : nm = s.mapStyle
  · simp [h]
  · simp only [h, if_false, if_neg]
    cases mapStyles nm <;> simp

theorem storeIds_addMarker (t : Nat) (lat lng : Rat) (nm : String) (s : AppState) :
    storeIds (addMarker t lat lng nm s)
      = storeIds s ++ [some (Json.str (Nat.repr t))] := by
  simp [storeIds, addMarker, markerJson, jGet, List.find?]

theorem storeIds_searchResponded_ok (t : Nat) (c : GeoCandidate)
    (rest : List GeoCandidate) (s : AppState) :
    storeIds (searchResponded t (FetchOutcome.ok (c :: rest)) s)
      = storeIds s ++ [some (Json.str (Nat.repr t))] := by
  simp [searchResponded, storeIds, addMarker, markerJson, jGet, List.find?]

theorem storeIds_removeMarker_sublist (id : String) (s : AppState) :
    (storeIds (removeMarker id s)).Sublist (storeIds s) := by
  have h : (removeMarker id s).savedMarkers.Sublist s.savedMarkers := by
    rw [removeMarker_savedMarkers]
    exact List.filter_sublist _
  simpa [storeIds] using h.map (fun m => jGet m "id")

theorem storeIds_setStyle (nm : String) (s : AppState) :
    storeIds (setStyle nm s) = storeIds s := by
  simp [storeIds, savedMarkers_setStyle]

theorem ids_extend_lemma (t : Nat) (ts : List Nat) (ids : List (Option Json))
    (hdt : (t :: ts).Pairwise (fun a b => a ≠ b))
    (hs : ids.Pairwise (fun a b => a ≠ b))
    (hfresh : ∀ x ∈ ids, ∀ u ∈ t :: ts, x ≠ some (Json.str (Nat.repr u))) :
    (ids ++ [some (Json.str (Nat.repr t))]).Pairwise (fun a b => a ≠ b) ∧
    (∀ x ∈ ids ++ [some (Json.str (Nat.repr t))], ∀ u ∈ ts,
        x ≠ some (Json.str (Nat.repr u))) := by
  constructor
  · rw [List.pairwise_append]
    refine ⟨hs, List.pairwise_singleton _ _, ?_⟩
    intro x hx y hy
    rw [List.mem_singleton] at hy
    subst hy
    exact hfresh x hx t (List.mem_cons_self _ _)
  · intro x hx u hu
    rcases List.mem_append.mp hx with hx | hx
    · exact hfresh x hx u (List.mem_cons_of_mem _ hu)
    · rw [List.mem_singleton] at hx
      subst hx
      intro hEq
      have h1 : Json.str (Nat.repr t) = Json.str (Nat.repr u) := Option.some.inj hEq
      have h2 : Nat.repr t = Nat.repr u := by injection h1
      have h3 : t = u := natRepr_injective h2
      exact (List.pairwise_cons.mp hdt).1 u hu h3

theorem run_ids_distinct (es : List Event) : ∀ (s : AppState),
    (es.all fun e => !(isImportEvt e)) = true →
    (traceAddTimes es).Pairwise (fun a b => a ≠ b) →
    (storeIds s).Pairwise (fun a b => a ≠ b) →
    (∀ x ∈ storeIds s, ∀ t ∈ traceAddTimes es, x ≠ some (Json.str (Nat.repr t))) →
    (storeIds (run es s)).Pairwise (fun a b => a ≠ b) := by
  induction es with
  | nil => intro s _ _ hs _; exact hs
  | cons e es ih =>
    intro s hall hdt hs hfresh
    have hall' : (es.all fun e => !(isImportEvt e)) = true := by
      simp only [List.all_cons, Bool.and_eq_true] at hall
      exact hall.2
    show (storeIds (run es (step s e))).Pairwise (fun a b => a ≠ b)
    cases e with
    | addAt t lat lng nm =>
      have hsplit := ids_extend_lemma t (traceAddTimes es) (storeIds s)
        (by simpa [traceAddTimes, addTimes] using hdt) hs
        (by simpa [traceAddTimes, addTimes] using hfresh)
      exact ih _ hall' (by simpa [traceAddTimes, addTimes] using hdt.sublist (List.sublist_cons_self _ _))
        (by simpa [step, storeIds_addMarker] using hsplit.1)
        (by simpa [step, storeIds_addMarker] using hsplit.2)
    | clickAt t lat lng =>
      have hsplit := ids_extend_lemma t (traceAddTimes es) (storeIds s)
        (by simpa [traceAddTimes, addTimes] using hdt) hs
        (by simpa [traceAddTimes, addTimes] using hfresh)
      exact ih _ hall' (by simpa [traceAddTimes, addTimes] using hdt.sublist (List.sublist_cons_self _ _))
        (by simpa [step, initClickHandler, registeredClickMarkers, storeIds_addMarker] using hsplit.1)
        (by simpa [step, initClickHandler, registeredClickMarkers, storeIds_addMarker] using hsplit.2)
    | searchRespAt t o =>
      cases o with
      | transportError =>
        exact ih _ hall' (by simpa [traceAddTimes, addTimes] using hdt)
          (by simpa [step, searchResponded, addToast, storeIds] using hs)
          (by simpa [step, searchResponded, addToast, storeIds, traceAddTimes, addTimes] using hfresh)
      | ok cs =>
        cases cs with
        | nil =>
          exact ih _ hall' (by simpa [traceAddTimes, addTimes] using hdt)
            (by simpa [step, searchResponded, addToast, storeIds] using hs)
            (by simpa [step, searchResponded, addToast, storeIds, traceAddTimes, addTimes] using hfresh)
        | cons c rest =>
          have hsplit := ids_extend_lemma t (traceAddTimes es) (storeIds s)
            (by simpa [traceAddTimes, addTimes] using hdt) hs
            (by simpa [traceAddTimes, addTimes] using hfresh)
          exact ih _ hall' (by simpa [traceAddTimes, addTimes] using hdt.sublist (List.sublist_cons_self _ _))
            (by simpa [step, storeIds_searchResponded_ok] using hsplit.1)
            (by simpa [step, storeIds_searchResponded_ok] using hsplit.2)
    | removeEvt id =>
      have hsub := storeIds_removeMarker_sublist id s
      exact ih _ hall' (by simpa [traceAddTimes, addTimes] using hdt)
        (hs.sublist hsub)
        (fun x hx u hu => hfresh x (hsub.subset hx) u (by simpa [traceAddTimes, addTimes] using hu))
    | importEvt r =>
      rw [List.all_cons] at hall
      simp [isImportEvt] at hall
    | setStyleEvt nm =>
      exact ih _ hall' (by simpa [traceAddTimes, addTimes] using hdt)
        (by simpa [step, storeIds_setStyle] using hs)
        (by simpa [step, storeIds_setStyle, traceAddTimes, addTimes] using hfresh)

/-! ### Claim theorems -/

/-- Claim C1, counterexample: starting from the empty store, two addMarker
calls whose Date.now() readings fall in the same millisecond (both read 5)
leave the store with the duplicate id "5" twice — the ids are not pairwise
distinct, refuting uniqueness for all add sequences. -/
theorem c1_counterexample :
    storeIds (run c1Trace (initialState none))
      = [some (Json.str "5"), some (Json.str "5")] ∧
    ¬ (storeIds (run c1Trace (initialState none))).Pairwise (fun a b => a ≠ b) := by
  constructor
  · rfl
  · intro h
    rw [show storeIds (run c1Trace (initialState none))
        = [some (Json.str "5"), some (Json.str "5")] from rfl] at h
    exact (List.pairwise_cons.mp h).1 _ (List.mem_singleton.mpr rfl) rfl

/-- Claim C1 (amended): ids generated by add are Date.now().toString() with no
collision handling, and replaceAll installs imported ids unchecked; so the
store's ids are pairwise distinct only under the proviso that the trace
contains no import and every id-generating call reads a distinct clock
value.  Under that proviso, for every sequence of add, click, search, remove
and style events starting from the empty store, the ids are pairwise
distinct. -/
theorem c1_amended_ids_distinct_for_distinct_times (es : List Event) (stored : Option Json)
    (hni : (es.all fun e => !(isImportEvt e)) = true)
    (hdt : (traceAddTimes es).Pairwise (fun a b => a ≠ b)) :
    (storeIds (run es (initialState stored))).Pairwise (fun a b => a ≠ b) :=
  run_ids_distinct es (initialState stored) hni hdt
    (by simp [storeIds, initialState])
    (by simp [storeIds, initialState])

/-- Claim C1 witness: a concrete import-free trace whose two adds happen at
clocks 5 and 7 satisfies the hypotheses, and the resulting ids are pairwise
distinct. -/
theorem c1_amended_witness :
    (c1GoodTrace.all fun e => !(isImportEvt e)) = true ∧
    (traceAddTimes c1GoodTrace).Pairwise (fun a b => a ≠ b) ∧
    (storeIds (run c1GoodTrace (initialState none))).Pairwise (fun a b => a ≠ b) :=
  ⟨rfl, by simp [c1GoodTrace, traceAddTimes, addTimes],
    c1_amended_ids_distinct_for_distinct_times c1GoodTrace none rfl
      (by simp [c1GoodTrace, traceAddTimes, addTimes])⟩

/-- Claim C2, counterexample: an import candidate that is valid JSON but
fails the spec's schema (latitude 100 and longitude 200 out of range) is not
rejected: replaceAll swaps the store's list to it, installs a handle for it,
and shows a success notice — the store does not stay unchanged and the user
gets no failure notice. -/
theorem c2_counterexample :
    specValidImport c2BadLocs = false ∧
    (importLocations (ParseResult.success c2BadLocs) (initialState none)).savedMarkers
      = c2BadLocs ∧
    (importLocations (ParseResult.success c2BadLocs) (initialState none)).markersRef
      = [("a", 0)] ∧
    (importLocations (ParseResult.success c2BadLocs) (initialState none)).toasts
      = ["Imported 1 locations!"] ∧
    (initialState none).savedMarkers = [] ∧
    c2BadLocs ≠ [] := by
  refine ⟨by decide, rfl, rfl, rfl, rfl, by simp [c2BadLocs]⟩

/-- Claim C2 (amended): the only import inputs replaceAll rejects atomically
are the ones JSON.parse cannot parse: for those the store's list, the handle
map and the surface are left exactly as they were and the user receives the
failure notice.  An input that parses is not schema-validated at all — the
store's list is replaced wholesale by it, missing fields, wrong types and
out-of-range coordinates included. -/
theorem c2_amended_only_parse_failure_atomic (s : AppState) (locs : List Json) :
    ((importLocations ParseResult.failure s).savedMarkers = s.savedMarkers ∧
     (importLocations ParseResult.failure s).markersRef = s.markersRef ∧
     (importLocations ParseResult.failure s).surface = s.surface ∧
     (importLocations ParseResult.failure s).toasts = importFailToast :: s.toasts) ∧
    (importLocations (ParseResult.success locs) s).savedMarkers = locs :=
  ⟨⟨rfl, rfl, rfl, rfl⟩, importLocations_success_savedMarkers locs s⟩

/-- Claim C3, counterexample: search("A") then search("B") issued before A
resolves (both guards pass), with A's response arriving after B's: both
responses are applied, two Locations are added, and the last one added is
derived from A's (stale) result — not exactly one Location derived from B. -/
theorem c3_counterexample :
    searchGuard c3s0 = true ∧ searchGuard c3s1 = true ∧
    c3final.savedMarkers.length = 2 ∧
    c3final.savedMarkers.map (fun m => jGet m "name")
      = [some (Json.str "Beta"), some (Json.str "Alpha")] :=
  ⟨by decide, by decide, rfl, rfl⟩

/-- Claim C3 (amended): searchLocation has no generation counter or other
cancellation: every search response that arrives with at least one candidate
adds a Location when it arrives.  Issuing search(A) then search(B) where A's
response arrives after B's adds two Locations — B's first, then A's — so the
stale response from A is applied, not discarded. -/
theorem c3_amended_stale_response_applied (tA tB : Nat) (cA cB : GeoCandidate)
    (rA rB : List GeoCandidate) (s : AppState) :
    (searchResponded tA (FetchOutcome.ok (cA :: rA))
        (searchResponded tB (FetchOutcome.ok (cB :: rB)) s)).savedMarkers
      = s.savedMarkers
        ++ [markerJson (Nat.repr tB) cB.display_name cB.lat cB.lon,
            markerJson (Nat.repr tA) cA.display_name cA.lat cA.lon] := by
  simp [searchResponded, addMarker]

/-- Claim C4: exporting the current list and re-importing the exported text
through replaceAll's parser restores exactly the same list of records — same
ids, same names, same coordinates (exact, since serialization round-trips
the stored values). -/
theorem c4_export_import_roundtrip (s : AppState) :
    (importLocations (ParseResult.success (exportLocations s)) s).savedMarkers
      = s.savedMarkers :=
  importLocations_success_savedMarkers s.savedMarkers s

/-- Claim C5: the code persists nothing.  Startup ignores whatever durable
storage holds — the store always starts empty — and none of the mutations
(add, remove, replaceAll) writes to storage. -/
theorem c5_no_persistence (stored : Option Json) (t : Nat) (lat lng : Rat)
    (nm id : String) (r : ParseResult) (s : AppState) :
    (initialState stored).savedMarkers = [] ∧
    (initialState stored).storage = stored ∧
    (addMarker t lat lng nm s).storage = s.storage ∧
    (removeMarker id s).storage = s.storage ∧
    (importLocations r s).storage = s.storage :=
  ⟨rfl, rfl, rfl, removeMarker_storage id s, importLocations_storage r s⟩

/-- Claim C6: a style change replaces only tile layers: the keys of the
rendered-marker handle map and the marker layers on the surface are identical
immediately before and after setStyle, for every style name and state. -/
theorem c6_setStyle_preserves_marker_handles (nm : String) (s : AppState) :
    objKeys ((setStyle nm s).markersRef) = objKeys s.markersRef ∧
    (setStyle nm s).surface.markerLayers = s.surface.markerLayers := by
  unfold setStyle styleEffect
  by_cases h : nm = s.mapStyle
  · simp [h]
  · simp only [h, if_false, if_neg, not_false_iff]
    cases mapStyles nm <;> simp

/-- Claim C7, counterexample: invoking setStyle with the unrecognized name
"terrain" is not rejected: the active style becomes "terrain" instead of the
prior "streets" remaining active. -/
theorem c7_counterexample :
    mapStyles "terrain" = none ∧
    (initialState none).mapStyle = "streets" ∧
    (setStyle "terrain" (initialState none)).mapStyle = "terrain" ∧
    "terrain" ≠ "streets" :=
  ⟨rfl, rfl, rfl, by decide⟩

/-- Claim C7 (amended): style names outside the enumerated set are excluded
statically (the setter's TypeScript type and the UI's fixed buttons), not at
runtime: if setStyle is nevertheless invoked with an unrecognized name, the
name becomes the active style and the style effect removes the existing tile
layer without adding a replacement. -/
theorem c7_amended_unrecognized_style_not_rejected (nm : String) (s : AppState)
    (h1 : mapStyles nm = none) (h2 : nm ≠ s.mapStyle) :
    (setStyle nm s).mapStyle = nm ∧ (setStyle nm s).surface.tileLayers = [] := by
  unfold setStyle styleEffect
  simp [h2, h1]

/-- Claim C7 witness: the amended statement at the concrete name "terrain"
and the freshly initialized state. -/
theorem c7_amended_witness :
    mapStyles "terrain" = none ∧ "terrain" ≠ (initialState none).mapStyle ∧
    ((setStyle "terrain" (initialState none)).mapStyle = "terrain" ∧
     (setStyle "terrain" (initialState none)).surface.tileLayers = []) :=
  ⟨rfl, by decide,
    c7_amended_unrecognized_style_not_rejected "terrain" (initialState none) rfl (by decide)⟩

/-- Claim C8: removing an id that is present in neither the handle map nor
the list leaves list, handle map and surface unchanged (a no-op, not an
error), and removing the same id twice always produces exactly the same
list, handle map and surface as removing it once. -/
theorem c8_remove_noop_and_idempotent (id : String) (s : AppState) :
    ((objGet s.markersRef id = none ∧
        s.savedMarkers.all (fun m => !(jsIdEq (jGet m "id") id)) = true) →
      ((removeMarker id s).savedMarkers = s.savedMarkers ∧
       (removeMarker id s).markersRef = s.markersRef ∧
       (removeMarker id s).surface = s.surface)) ∧
    (removeMarker id (removeMarker id s)).savedMarkers
      = (removeMarker id s).savedMarkers ∧
    (removeMarker id (removeMarker id s)).markersRef
      = (removeMarker id s).markersRef ∧
    (removeMarker id (removeMarker id s)).surface
      = (removeMarker id s).surface := by
  refine ⟨?_, ?_, ?_, ?_⟩
  · rintro ⟨h1, h2⟩
    refine ⟨?_, removeMarker_markersRef_of_absent id s h1,
      removeMarker_surface_of_absent id s h1⟩
    rw [removeMarker_savedMarkers]
    exact List.filter_eq_self.mpr (fun a ha => List.all_eq_true.mp h2 a ha)
  · rw [removeMarker_savedMarkers id (removeMarker id s), removeMarker_savedMarkers id s,
      filter_idem]
  · exact removeMarker_markersRef_of_absent id _ (objGet_removeMarker_self id s)
  · exact removeMarker_surface_of_absent id _ (objGet_removeMarker_self id s)

/-- Claim C8 witness: at the concrete id "z" and the freshly initialized
state (where "z" is absent), the no-op antecedent holds and the conclusions
follow by applying the theorem. -/
theorem c8_witness :
    (objGet (initialState none).markersRef "z" = none ∧
     (initialState none).savedMarkers.all (fun m => !(jsIdEq (jGet m "id") "z")) = true) ∧
    ((removeMarker "z" (initialState none)).savedMarkers = (initialState none).savedMarkers ∧
     (removeMarker "z" (initialState none)).markersRef = (initialState none).markersRef ∧
     (removeMarker "z" (initialState none)).surface = (initialState none).surface) :=
  ⟨⟨rfl, rfl⟩, (c8_remove_noop_and_idempotent "z" (initialState none)).1 ⟨rfl, rfl⟩⟩

/-- Claim C9: the search continuation distinguishes zero candidates from a
transport failure — the former toasts "Location not found", the latter
"Search failed", the two notices differ, and in both cases the store's list
and the handle map are unchanged. -/
theorem c9_search_miss_vs_transport_failure (t : Nat) (s : AppState) :
    (searchResponded t (FetchOutcome.ok []) s).savedMarkers = s.savedMarkers ∧
    (searchResponded t (FetchOutcome.ok []) s).markersRef = s.markersRef ∧
    (searchResponded t (FetchOutcome.ok []) s).toasts = "Location not found" :: s.toasts ∧
    (searchResponded t FetchOutcome.transportError s).savedMarkers = s.savedMarkers ∧
    (searchResponded t FetchOutcome.transportError s).markersRef = s.markersRef ∧
    (searchResponded t FetchOutcome.transportError s).toasts = "Search failed" :: s.toasts ∧
    ("Location not found" : String) ≠ "Search failed" :=
  ⟨rfl, rfl, rfl, rfl, rfl, rfl, by decide⟩

/-- Claim C10: the click handler was registered once over the initial, empty
savedMarkers list, so every click-added marker is named "Location 1",
whatever the current state holds. -/
theorem c10_click_always_names_location_one (t : Nat) (lat lng : Rat) (s : AppState) :
    (initClickHandler registeredClickMarkers t lat lng s).savedMarkers
      = s.savedMarkers ++ [markerJson (Nat.repr t) "Location 1" lat lng] := rfl
